import Mathlib

/-!
Shallow embedding of the optimization/sweep driver and staged-pipeline
execution engine of the VirtualEngineering repository
(`vebio/OptimizationFunctions.py` and `vebio/RunFunctions.py`).

Machine floats are modelled by the rationals; Python exceptions by an
explicit error type threaded through `Except` or an `Option PyErr` result
component.  External collaborators (the physical models invoked through
`run_models_with_new_values`, the surrogate entry points) are parameters
of the embedded functions.
-/

namespace VE

/-- Python exceptions raised by the embedded code.
`rangeValueError a lo hi` stands for the f-string
`Value {a} is outside allowed interval [lo, hi]` produced by the stage
parameter setters (the bracket style of the message is elided);
`strValueError` carries the literal message of the other `ValueError`s;
`zeroDivisionError` models Python division by zero;
`attributeError` models assignment to a property without a setter. -/
inductive PyErr where
  | zeroDivisionError : PyErr
  | rangeValueError (value lo hi : ℚ) : PyErr
  | strValueError (msg : String) : PyErr
  | attributeError : PyErr
  deriving Repr, DecidableEq

/-- Python division: raises `ZeroDivisionError` on a zero divisor. -/
def pydiv (a b : ℚ) : Except PyErr ℚ :=
  if b = 0 then .error .zeroDivisionError else .ok (a / b)

/-- `Optimization.normalize` (OptimizationFunctions.py lines 70-73):
`(value - lb)/(ub - lb)` with Python division semantics. -/
def normalize (value : ℚ) (bounds : ℚ × ℚ) : Except PyErr ℚ :=
  pydiv (value - bounds.1) (bounds.2 - bounds.1)

/-- `Optimization.scale_back` (OptimizationFunctions.py lines 75-78):
`value*(ub - lb) + lb`. -/
def scale_back (value : ℚ) (bounds : ℚ × ℚ) : ℚ :=
  value * (bounds.2 - bounds.1) + bounds.1

/-- `self.output_names` as set in `Optimization.__init__` (line 24). -/
def output_names : List String :=
  ["pretreatment_output", "enzymatic_output", "bioreactor_output"]

/-- `Optimization.define_n_models` (OptimizationFunctions.py lines 93-99):
raises a ValueError naming the offending output name when it is not one of
`output_names`, otherwise returns its 1-based position. -/
def define_n_models (output_name : String) : Except PyErr ℕ :=
  if output_name ∈ output_names then
    .ok (output_names.indexOf output_name + 1)
  else
    .error (.strValueError
      ("Error: Output dictionary \x27" ++ output_name ++
       "\x27 doesn\x27t exist. Check the widget definition"))

/-- One UI control widget as seen by `Optimization.__init__`: the wrapped
slider exposes `value`, `min`, `max` and `description`, and the
`OptimizationWidget` wrapper exposes the `is_control` checkbox value.
`widget_name` is the attribute name inside its `WidgetCollection`. -/
structure Control where
  widget_name : String
  description : String
  value : ℚ
  min : ℚ
  max : ℚ
  is_control : Bool
  deriving Repr, DecidableEq

/-- The variable-binder fields filled by the construction loop of
`Optimization.__init__` (OptimizationFunctions.py lines 46-68). -/
structure OptInit where
  x_0 : List ℚ
  var_names : List String
  nice_var_names : List String
  var_real_bounds : List (ℚ × ℚ)
  var_bounds : List (ℚ × ℚ)
  deriving Repr, DecidableEq

/-- The loop of `Optimization.__init__` (lines 51-65): walk the widgets in
encounter order, and for every one flagged `is_control` normalize its value
to its `(min, max)` bounds and record name, description and bounds.  A
degenerate bounds pair raises `ZeroDivisionError` inside `normalize` at the
first flagged widget carrying it. -/
def collectControls : List Control → Except PyErr OptInit
  | [] => .ok ⟨[], [], [], [], []⟩
  | c :: rest =>
    if c.is_control then
      match normalize c.value (c.min, c.max) with
      | .error e => .error e
      | .ok scaled_value =>
        match collectControls rest with
        | .error e => .error e
        | .ok r =>
          .ok ⟨scaled_value :: r.x_0, c.widget_name :: r.var_names,
               c.description :: r.nice_var_names,
               (c.min, c.max) :: r.var_real_bounds,
               (0, 1) :: r.var_bounds⟩
    else collectControls rest

/-- `Optimization.__init__` lines 46-68: run the collection loop, then raise
a ValueError when no control was flagged. -/
def opt_init (controls : List Control) : Except PyErr OptInit :=
  match collectControls controls with
  | .error e => .error e
  | .ok r =>
    if r.x_0.length = 0 then
      .error (.strValueError
        "No controls have been specified, retry with >= 1 control variables.")
    else .ok r

/-- One line of the optimization results CSV
(`objective_function` lines 140-144): the 1-based iteration number, the
dimensional control values, and the negated unscaled objective. -/
structure LogRow where
  iteration : ℕ
  dims : List ℚ
  objective : ℚ
  deriving Repr, DecidableEq

/-- The mutable state of the Objective Evaluator: `fn_evals` and
`objective_scaling` (initialized to `0` and `1.0` in `Optimization.__init__`
lines 42-43), the per-variable real bounds, and the contents of the results
file appended to on every call. -/
structure OptState where
  fn_evals : ℕ
  objective_scaling : ℚ
  var_real_bounds : List (ℚ × ℚ)
  opt_log : List LogRow
  deriving Repr, DecidableEq

/-- The dimensional values computed at the top of `objective_function`
(lines 122-124): every free variable scaled back with its real bounds. -/
def dims_of (free_variables : List ℚ) (s : OptState) : List ℚ :=
  (free_variables.zip s.var_real_bounds).map fun p => scale_back p.1 p.2

/-- `Optimization.objective_function` (OptimizationFunctions.py lines
119-154).  `pipeline` stands for the external
`run_models_with_new_values` call: it maps the dimensional values to the
objective read back from the shared configuration document (each call may
answer differently because the stage models are stateful, so the pipeline
is a per-call parameter).  The code scales the normalized vector back to
dimensional values, negates the pipeline result, on the first call sets
`objective_scaling = -1.0/obj` (Python division: raises on `obj = 0`),
increments `fn_evals`, appends one log row with the negated unscaled
objective, and returns `obj * objective_scaling`. -/
def objective_function (pipeline : List ℚ → ℚ) (free_variables : List ℚ)
    (s : OptState) : Except PyErr (ℚ × OptState) :=
  let dimensional_values := dims_of free_variables s
  let obj := -(pipeline dimensional_values)
  match (if s.fn_evals = 0 then pydiv (-1) obj
         else .ok s.objective_scaling) with
  | .error e => .error e
  | .ok sc =>
    .ok (obj * sc,
      { s with fn_evals := s.fn_evals + 1,
               objective_scaling := sc,
               opt_log := s.opt_log ++
                 [⟨s.fn_evals + 1, dimensional_values, obj⟩] })

/-- `np.linspace(lb, ub, n)` over the rationals: `n` evenly spaced samples
from `lb` to `ub` inclusive; for `n = 1` numpy returns the single sample
`[lb]` (the spacing divisor `n - 1` is never used in that case). -/
def linspace (lb ub : ℚ) (n : ℕ) : List ℚ :=
  if n = 1 then [lb]
  else (List.range n).map fun (i : ℕ) =>
    lb + (i : ℚ) * ((ub - lb) / ((n : ℚ) - 1))

/-- Column `k` of the stacked array built by `parameter_grid_sweep` (lines
176-182): `np.meshgrid(*grid_x, indexing=ij)` makes `d` tensors of shape
`(n, .., n)` with tensor `j` constant except along axis `j`, and `.ravel()`
flattens each in C order (row-major), so flat position `k` carries the
multi-index whose `j`-th digit is `(k / n^(d-1-j)) % n`. -/
def gridCombo (pts : List (List ℚ)) (n k : ℕ) : List ℚ :=
  (List.range pts.length).map fun j =>
    (pts.getD j []).getD ((k / n ^ (pts.length - 1 - j)) % n) 0

/-- The `n^d` grid combinations visited by `parameter_grid_sweep`, in the
order of its iteration over the columns of `grid_ravel`. -/
def grid_combos (bounds : List (ℚ × ℚ)) (n : ℕ) : List (List ℚ) :=
  (List.range (n ^ bounds.length)).map
    (gridCombo (bounds.map fun b => linspace b.1 b.2 n) n)

/-- One CSV row of the sweep results file (lines 192-196): 1-based index,
the dimensional values, and the raw objective. -/
structure SweepRow where
  iteration : ℕ
  values : List ℚ
  objective : ℚ
  deriving Repr, DecidableEq

/-- `Optimization.parameter_grid_sweep` (OptimizationFunctions.py lines
162-198): enumerate the grid combinations in order, call
`run_models_with_new_values` (the `pipeline` parameter) directly on each —
no negation and no scaling — and append one row per combination. -/
def parameter_grid_sweep (pipeline : List ℚ → ℚ) (bounds : List (ℚ × ℚ))
    (nn : ℕ) : List SweepRow :=
  (grid_combos bounds nn).mapIdx fun i dv => ⟨i + 1, dv, pipeline dv⟩

/-- Row-major Cartesian product (first coordinate slowest), the reference
order against which the raveled meshgrid enumeration is checked. -/
def cartProd : List (List ℚ) → List (List ℚ)
  | [] => [[]]
  | xs :: rest => xs.flatMap fun x => (cartProd rest).map fun c => x :: c

/-- A float stored in the shared yaml document: either a number or NaN
(NaN placeholders are written by unfinished CFD runs). -/
inductive PyFloat where
  | nan : PyFloat
  | val (q : ℚ) : PyFloat
  deriving Repr, DecidableEq

/-- `np.isnan` on a stored float. -/
def PyFloat.isNan : PyFloat → Bool
  | .nan => true
  | .val _ => false

/-- The `feedstock` block persisted by `Feedstock.input2yaml`
(RunFunctions.py lines 75-85). -/
structure FSBlock where
  xylan_solid_fraction : ℚ
  glucan_solid_fraction : ℚ
  initial_porosity : ℚ
  deriving Repr, DecidableEq

/-- The `pretreatment_input` block persisted by `Pretreatment.input2yaml`
(lines 215-227). -/
structure PTBlock where
  initial_acid_conc : ℚ
  steam_temperature : ℚ
  initial_solid_fraction : ℚ
  bulk_steam_conc : ℚ
  final_time : ℚ
  deriving Repr, DecidableEq

/-- The `bioreactor_input` block persisted by `Bioreactor.input2yaml`
(lines 744-757). -/
structure BRBlock where
  model_type : String
  gas_velocity : ℚ
  column_height : ℚ
  column_diameter : ℚ
  bubble_diameter : ℚ
  t_final : ℚ
  deriving Repr, DecidableEq

/-- The slice of the shared configuration document touched by the embedded
stage operations: the per-stage input blocks rewritten by the setters, and
the `enzymatic_output` `rho_g` entry read by the bioreactor surrogate. -/
structure Params where
  feedstock : Option FSBlock
  pretreatment_input : Option PTBlock
  bioreactor_input : Option BRBlock
  enzymatic_output_rho_g : PyFloat
  deriving Repr, DecidableEq

/-- In-memory state of the `Feedstock` stage model (lines 30-33). -/
structure Feedstock where
  _xylan_solid_fraction : ℚ
  _glucan_solid_fraction : ℚ
  _initial_porosity : ℚ
  deriving Repr, DecidableEq

/-- `Feedstock.input2yaml(rewrite=True)` (lines 75-82): re-persist the full
feedstock block, replacing only this stage's section. -/
def Feedstock.input2yaml (s : Feedstock) (d : Params) : Params :=
  { d with feedstock := some ⟨s._xylan_solid_fraction,
      s._glucan_solid_fraction, s._initial_porosity⟩ }

/-- The `Feedstock.xylan_solid_fraction` setter (lines 43-48): validate
against `[0, 1]` before mutating, then re-persist. -/
def Feedstock.set_xylan_solid_fraction (a : ℚ) (s : Feedstock) (d : Params) :
    Option PyErr × Feedstock × Params :=
  if ¬ (0 ≤ a ∧ a ≤ 1) then (some (.rangeValueError a 0 1), s, d)
  else
    let s' : Feedstock := { s with _xylan_solid_fraction := a }
    (none, s', s'.input2yaml d)

/-- In-memory state of the `Pretreatment` stage model (lines 122-135). -/
structure Pretreatment where
  _initial_acid_conc : ℚ
  _steam_temperature : ℚ
  _initial_solid_fraction : ℚ
  _bulk_steam_conc : ℚ
  _final_time : ℚ
  deriving Repr, DecidableEq

/-- `Pretreatment.input2yaml(rewrite=True)` (lines 215-224). -/
def Pretreatment.input2yaml (s : Pretreatment) (d : Params) : Params :=
  { d with pretreatment_input := some ⟨s._initial_acid_conc,
      s._steam_temperature, s._initial_solid_fraction,
      s._bulk_steam_conc, s._final_time⟩ }

/-- The `Pretreatment.initial_acid_conc` setter (lines 161-166): validate
against `[0.0, 1.0]` before mutating, then re-persist. -/
def Pretreatment.set_initial_acid_conc (a : ℚ) (s : Pretreatment)
    (d : Params) : Option PyErr × Pretreatment × Params :=
  if ¬ (0 ≤ a ∧ a ≤ 1) then (some (.rangeValueError a 0 1), s, d)
  else
    let s' : Pretreatment := { s with _initial_acid_conc := a }
    (none, s', s'.input2yaml d)

/-- In-memory state of the `Bioreactor` stage model (lines 647-652). -/
structure Bioreactor where
  _model_type : String
  _gas_velocity : ℚ
  _column_height : ℚ
  _column_diameter : ℚ
  _bubble_diameter : ℚ
  _t_final : ℚ
  deriving Repr, DecidableEq

/-- `Bioreactor.input2yaml(rewrite=True)` (lines 744-754). -/
def Bioreactor.input2yaml (s : Bioreactor) (d : Params) : Params :=
  { d with bioreactor_input := some ⟨s._model_type, s._gas_velocity,
      s._column_height, s._column_diameter, s._bubble_diameter,
      s._t_final⟩ }

/-- Body of the `gas_velocity` setter (lines 665-674).  The source guards
the surrogate range check with `self._model_type is 'surrogate'`, modelled
as string equality; the stored model types are `CFD Simulation` and
`CFD Surrogate`, so that branch is never taken for them and only `0 <= a`
is enforced.  Both error messages name the interval `[1, 1e16]`. -/
def br_set_gas_velocity (a : ℚ) (s : Bioreactor) (d : Params) :
    Option PyErr × Bioreactor × Params :=
  if s._model_type = "surrogate" then
    if ¬ (1/100 ≤ a ∧ a ≤ 1/10) then (some (.rangeValueError a 1 (10 ^ 16)), s, d)
    else
      let s' : Bioreactor := { s with _gas_velocity := a }
      (none, s', s'.input2yaml d)
  else
    if ¬ (0 ≤ a) then (some (.rangeValueError a 1 (10 ^ 16)), s, d)
    else
      let s' : Bioreactor := { s with _gas_velocity := a }
      (none, s', s'.input2yaml d)

/-- Body of the setter defined at lines 680-685: decorated with
`@column_height.setter` but bound to the class-body name `t_final`; checks
`10 <= a <= 50`, reports `[1, 1e16]`, writes `_column_height`. -/
def br_set_column_height_body (a : ℚ) (s : Bioreactor) (d : Params) :
    Option PyErr × Bioreactor × Params :=
  if ¬ (10 ≤ a ∧ a ≤ 50) then (some (.rangeValueError a 1 (10 ^ 16)), s, d)
  else
    let s' : Bioreactor := { s with _column_height := a }
    (none, s', s'.input2yaml d)

/-- The `column_diameter` setter (lines 691-696): checks `1 <= a <= 6` but
its error message names the interval `[1, 1e16]`. -/
def br_set_column_diameter (a : ℚ) (s : Bioreactor) (d : Params) :
    Option PyErr × Bioreactor × Params :=
  if ¬ (1 ≤ a ∧ a ≤ 6) then (some (.rangeValueError a 1 (10 ^ 16)), s, d)
  else
    let s' : Bioreactor := { s with _column_diameter := a }
    (none, s', s'.input2yaml d)

/-- Body of the setter defined at lines 702-707: decorated with
`@bubble_diameter.setter` but bound to the class-body name `t_final`;
checks `0.003 <= a <= 0.008`, reports `[1, 1e16]`, writes
`_bubble_diameter`. -/
def br_set_bubble_diameter_body (a : ℚ) (s : Bioreactor) (d : Params) :
    Option PyErr × Bioreactor × Params :=
  if ¬ (3/1000 ≤ a ∧ a ≤ 8/1000) then
    (some (.rangeValueError a 1 (10 ^ 16)), s, d)
  else
    let s' : Bioreactor := { s with _bubble_diameter := a }
    (none, s', s'.input2yaml d)

/-- The `t_final` setter (lines 714-719): checks `1 <= a <= 1e16`. -/
def br_set_t_final (a : ℚ) (s : Bioreactor) (d : Params) :
    Option PyErr × Bioreactor × Params :=
  if ¬ (1 ≤ a ∧ a ≤ 10 ^ 16) then (some (.rangeValueError a 1 (10 ^ 16)), s, d)
  else
    let s' : Bioreactor := { s with _t_final := a }
    (none, s', s'.input2yaml d)

/-- The numeric `Bioreactor` property names (lines 661-719). -/
inductive BRAttr where
  | gas_velocity : BRAttr
  | column_height : BRAttr
  | column_diameter : BRAttr
  | bubble_diameter : BRAttr
  | t_final : BRAttr
  deriving Repr, DecidableEq

/-- A Python `property` object: a getter and an optional setter. -/
structure BRProperty where
  fget : Bioreactor → ℚ
  fset : Option (ℚ → Bioreactor → Params → Option PyErr × Bioreactor × Params)

/-- The class-body property bindings of `Bioreactor` in source order (lines
661-719).  Each `@property def NAME` binds `NAME` to a getter-only
property; each `@OTHER.setter def NAME` binds `NAME` to a copy of `OTHER`'s
property with the setter filled in.  The two setters at lines 680-685 and
702-707 are decorated with `@column_height.setter` and
`@bubble_diameter.setter` but are both *named* `t_final`, so they bind the
class-body name `t_final`, not `column_height`/`bubble_diameter`. -/
def brClassBody : List (BRAttr × BRProperty) :=
  [ (.gas_velocity, ⟨fun s => s._gas_velocity, none⟩),
    (.gas_velocity, ⟨fun s => s._gas_velocity, some br_set_gas_velocity⟩),
    (.column_height, ⟨fun s => s._column_height, none⟩),
    (.t_final, ⟨fun s => s._column_height, some br_set_column_height_body⟩),
    (.column_diameter, ⟨fun s => s._column_diameter, none⟩),
    (.column_diameter, ⟨fun s => s._column_diameter, some br_set_column_diameter⟩),
    (.bubble_diameter, ⟨fun s => s._bubble_diameter, none⟩),
    (.t_final, ⟨fun s => s._bubble_diameter, some br_set_bubble_diameter_body⟩),
    (.t_final, ⟨fun s => s._t_final, none⟩),
    (.t_final, ⟨fun s => s._t_final, some br_set_t_final⟩) ]

/-- The resulting class dictionary: later bindings of the same name win,
exactly as successive assignments to a Python class-body name do. -/
def brClassDict (name : BRAttr) : Option BRProperty :=
  (brClassBody.foldl (fun acc p n => if n = p.1 then some p.2 else acc n)
    fun _ => none) name

/-- `getattr` on a `Bioreactor` property name. -/
def brGetAttr (name : BRAttr) (s : Bioreactor) : Option ℚ :=
  (brClassDict name).map fun p => p.fget s

/-- `setattr` on a `Bioreactor` property name: a property whose `fset` is
absent raises `AttributeError` and changes nothing. -/
def brSetAttr (name : BRAttr) (a : ℚ) (s : Bioreactor) (d : Params) :
    Option PyErr × Bioreactor × Params :=
  match brClassDict name with
  | some p =>
    match p.fset with
    | some setter => setter a s d
    | none => (some .attributeError, s, d)
  | none => (some .attributeError, s, d)

/-- `Bioreactor.run_biorector_cfd_surrogate` (RunFunctions.py lines
795-811).  `main` stands for the external `bcolumn_surrogate.main` call
(which reads and rewrites the shared document) and `nansIn` for
`check_dict_for_nans` applied to the produced `bioreactor_output`.  When
the persisted `enzymatic_output` `rho_g` is NaN the function only prints
`Waiting for EH CFD results.` and falls off the end: Python returns `None`
(modelled `none`), not a boolean flag, and nothing runs. -/
def Bioreactor.run_biorector_cfd_surrogate (main : Params → Params)
    (nansIn : Params → Bool) (d : Params) : Option Bool × Params :=
  if d.enzymatic_output_rho_g.isNan then (none, d)
  else
    let d' := main d
    if nansIn d' then (some true, d') else (some false, d')

end VE

namespace VE

/-- Claim C2: for every bounds pair with `ub > lb` and every `v`, normalizing
and scaling back round-trips exactly over the rationals:
`scale_back (normalize v (lb, ub)) (lb, ub) = v`. -/
theorem claim_C2_round_trip (lb ub v : ℚ) (h : lb < ub) :
    ∃ w, normalize v (lb, ub) = .ok w ∧ scale_back w (lb, ub) = v := by
  have hne : ub - lb ≠ 0 := sub_ne_zero.mpr (ne_of_gt h)
  refine ⟨(v - lb) / (ub - lb), ?_, ?_⟩
  · simp [normalize, pydiv, hne]
  · field_simp [scale_back]

/-- Witness for C2 at bounds `(10, 20)` and `v = 15`. -/
theorem claim_C2_round_trip_witness :
    (10 : ℚ) < 20 ∧
      ∃ w, normalize 15 ((10 : ℚ), (20 : ℚ)) = .ok w ∧
        scale_back w ((10 : ℚ), (20 : ℚ)) = 15 :=
  ⟨by norm_num, claim_C2_round_trip 10 20 15 (by norm_num)⟩

/-- Claim C3: `define_n_models` returns 1 for `pretreatment_output`, 2 for
`enzymatic_output`, 3 for `bioreactor_output`, and raises a ValueError whose
message names the offending value for every other string. -/
theorem claim_C3_define_n_models :
    define_n_models "pretreatment_output" = .ok 1 ∧
    define_n_models "enzymatic_output" = .ok 2 ∧
    define_n_models "bioreactor_output" = .ok 3 ∧
    ∀ s : String, s ∉ output_names →
      define_n_models s = .error (.strValueError
        ("Error: Output dictionary \x27" ++ s ++
         "\x27 doesn\x27t exist. Check the widget definition")) := by
  refine ⟨by rfl, by rfl, by rfl, ?_⟩
  intro s hs
  simp [define_n_models, hs]

/-- Witness for C3: the unknown category `"foo"` is rejected with a message
naming it. -/
theorem claim_C3_define_n_models_witness :
    "foo" ∉ output_names ∧
      define_n_models "foo" = .error (.strValueError
        ("Error: Output dictionary \x27" ++ "foo" ++
         "\x27 doesn\x27t exist. Check the widget definition")) :=
  ⟨by decide, (claim_C3_define_n_models.2.2.2 "foo" (by decide))⟩

/-- A flagged control with degenerate bounds makes the collection loop raise
`ZeroDivisionError` inside `normalize`. -/
lemma collectControls_degenerate :
    ∀ controls : List Control,
      (∃ c ∈ controls, c.is_control = true ∧ c.min = c.max) →
      collectControls controls = .error .zeroDivisionError := by
  intro controls
  induction controls with
  | nil => rintro ⟨c, hc, -⟩; exact absurd hc (List.not_mem_nil c)
  | cons a rest ih =>
    rintro ⟨c, hc, hctrl, hdeg⟩
    rcases List.mem_cons.mp hc with rfl | hmem
    · simp only [collectControls, hctrl, if_true]
      simp [normalize, pydiv, hdeg]
    · have hrest := ih ⟨c, hmem, hctrl, hdeg⟩
      by_cases ha : a.is_control
      · simp only [collectControls, ha, if_true]
        cases hn : normalize a.value (a.min, a.max) with
        | error e =>
          simp only [normalize, pydiv] at hn
          split at hn
          · simp only [hrest]
            cases hn; rfl
          · cases hn
        | ok w => simp [hrest]
      · simpa [collectControls, ha] using hrest

/-- When every flagged control has non-degenerate bounds, the collection loop
succeeds and gathers exactly one vector entry per flagged control. -/
lemma collectControls_ok :
    ∀ controls : List Control,
      (∀ c ∈ controls, c.is_control = true → c.min ≠ c.max) →
      ∃ r, collectControls controls = .ok r ∧
        r.x_0.length = (controls.filter (fun c => c.is_control)).length := by
  intro controls
  induction controls with
  | nil => intro _; exact ⟨⟨[], [], [], [], []⟩, rfl, rfl⟩
  | cons a rest ih =>
    intro h
    obtain ⟨r, hr, hlen⟩ :=
      ih (fun c hc => h c (List.mem_cons_of_mem a hc))
    by_cases ha : a.is_control
    · have hne : a.max - a.min ≠ 0 :=
        sub_ne_zero.mpr (Ne.symm (h a (List.mem_cons_self a rest) ha))
      refine ⟨⟨(a.value - a.min) / (a.max - a.min) :: r.x_0,
               a.widget_name :: r.var_names,
               a.description :: r.nice_var_names,
               (a.min, a.max) :: r.var_real_bounds,
               (0, 1) :: r.var_bounds⟩, ?_, ?_⟩
      · simp [collectControls, ha, normalize, pydiv, hne, hr]
      · simp [List.filter_cons, ha, hlen]
    · refine ⟨r, ?_, ?_⟩
      · simpa [collectControls, ha] using hr
      · simp only [List.filter_cons]
        simpa [ha] using hlen

/-- Claim C7: if any flagged (selected) control variable carries degenerate
real bounds (`max = min`), constructing the optimization driver fails (the
division inside `normalize` raises `ZeroDivisionError` during
`Optimization.__init__`, before any evaluation). -/
theorem claim_C7_degenerate_bounds_reject (controls : List Control)
    (h : ∃ c ∈ controls, c.is_control = true ∧ c.min = c.max) :
    opt_init controls = .error .zeroDivisionError := by
  simp [opt_init, collectControls_degenerate controls h]

/-- Witness for C7: one selected control with bounds `(5, 5)`. -/
theorem claim_C7_degenerate_bounds_reject_witness :
    (∃ c ∈ [Control.mk "x" "X" 5 5 5 true],
        c.is_control = true ∧ c.min = c.max) ∧
      opt_init [Control.mk "x" "X" 5 5 5 true] = .error .zeroDivisionError :=
  ⟨⟨Control.mk "x" "X" 5 5 5 true, by decide, rfl, rfl⟩,
   claim_C7_degenerate_bounds_reject _
     ⟨Control.mk "x" "X" 5 5 5 true, by decide, rfl, rfl⟩⟩

/-- Claim C8: with zero flagged controls, `Optimization.__init__` raises a
ValueError; with exactly one flagged control (with valid bounds) the
optimization vector `x_0` has length 1. -/
theorem claim_C8_control_count (controls : List Control) :
    ((∀ c ∈ controls, c.is_control = false) →
      opt_init controls = .error (.strValueError
        "No controls have been specified, retry with >= 1 control variables.")) ∧
    (∀ c : Control, controls.filter (fun x => x.is_control) = [c] →
      c.min ≠ c.max →
      ∃ r, opt_init controls = .ok r ∧ r.x_0.length = 1) := by
  constructor
  · intro h
    obtain ⟨r, hr, hlen⟩ :=
      collectControls_ok controls
        (fun c hc hctrl => absurd (h c hc) (by simp [hctrl]))
    have hfilter : controls.filter (fun c => c.is_control) = [] := by
      rw [List.filter_eq_nil_iff]
      intro c hc
      simp [h c hc]
    rw [hfilter] at hlen
    simp [opt_init, hr, List.length_eq_zero.mp hlen]
  · intro c hfilter hne
    have hall : ∀ x ∈ controls, x.is_control = true → x.min ≠ x.max := by
      intro x hx hctrl
      have : x ∈ controls.filter (fun x => x.is_control) :=
        List.mem_filter.mpr ⟨hx, by simp [hctrl]⟩
      rw [hfilter, List.mem_singleton] at this
      subst this; exact hne
    obtain ⟨r, hr, hlen⟩ := collectControls_ok controls hall
    rw [hfilter] at hlen
    refine ⟨r, ?_, hlen⟩
    simp [opt_init, hr, hlen]

/-- Unfolding lemma: a first evaluation (`fn_evals = 0`) with a nonzero
pipeline result sets the scaling to `-1` over the negated objective,
logs iteration 1, and returns the scaled objective. -/
lemma objective_function_first (f : List ℚ → ℚ) (x : List ℚ) (s : OptState)
    (h0 : s.fn_evals = 0) (hnz : f (dims_of x s) ≠ 0) :
    objective_function f x s =
      .ok (-(f (dims_of x s)) * (-1 / -(f (dims_of x s))),
        { s with fn_evals := 1,
                 objective_scaling := -1 / -(f (dims_of x s)),
                 opt_log := s.opt_log ++
                   [⟨1, dims_of x s, -(f (dims_of x s))⟩] }) := by
  unfold objective_function
  rw [h0]
  simp [pydiv, neg_eq_zero, hnz]

/-- Unfolding lemma: a first evaluation with pipeline result exactly zero
raises `ZeroDivisionError` while computing the scaling factor. -/
lemma objective_function_first_zero (f : List ℚ → ℚ) (x : List ℚ)
    (s : OptState) (h0 : s.fn_evals = 0) (hz : f (dims_of x s) = 0) :
    objective_function f x s = .error .zeroDivisionError := by
  unfold objective_function
  rw [h0]
  simp [pydiv, neg_eq_zero, hz]

/-- Unfolding lemma: every later evaluation keeps the stored scaling factor,
increments `fn_evals`, and logs the negated unscaled objective. -/
lemma objective_function_later (f : List ℚ → ℚ) (x : List ℚ) (s : OptState)
    (h0 : s.fn_evals ≠ 0) :
    objective_function f x s =
      .ok (-(f (dims_of x s)) * s.objective_scaling,
        { s with fn_evals := s.fn_evals + 1,
                 objective_scaling := s.objective_scaling,
                 opt_log := s.opt_log ++
                   [⟨s.fn_evals + 1, dims_of x s,
                     -(f (dims_of x s))⟩] }) := by
  unfold objective_function
  simp [h0]

/-- Counterexample to claim C1 as stated: on a first call whose pipeline
result is `-4.0` (one control with bounds `(0, 1)`, normalized input `0.5`),
the evaluator sets `objective_scaling` to `-0.25`, not `0.25`: the code
computes `-1.0/obj` with `obj` already negated to `4.0`. -/
theorem claim_C1_counterexample :
    objective_function (fun _ => -4) [1/2] (OptState.mk 0 1 [(0, 1)] []) =
      .ok (-1, OptState.mk 1 (-(1/4)) [(0, 1)] [⟨1, [1/2], 4⟩]) ∧
    (-(1/4) : ℚ) ≠ 1/4 := by
  constructor
  · rw [objective_function_first (fun _ => -4) [1/2]
        (OptState.mk 0 1 [(0, 1)] []) rfl (by norm_num)]
    norm_num [dims_of, scale_back]
  · norm_num

/-- Claim C1 amended: with evaluation count starting at 0, a first call whose
pipeline result is `-4.0` sets `objective_scaling` to `-0.25` and returns
scaled objective exactly `-1.0`, and a second call whose pipeline result is
`-2.0` returns scaled objective `-0.5`. -/
theorem claim_C1_first_call_scaling (f : List ℚ → ℚ) (x₁ : List ℚ)
    (s : OptState) (h0 : s.fn_evals = 0) (h1 : f (dims_of x₁ s) = -4) :
    objective_function f x₁ s =
      .ok (-1, OptState.mk 1 (-(1/4)) s.var_real_bounds
        (s.opt_log ++ [⟨1, dims_of x₁ s, 4⟩])) ∧
    ∀ (g : List ℚ → ℚ) (x₂ : List ℚ),
      g (dims_of x₂ (OptState.mk 1 (-(1/4)) s.var_real_bounds
          (s.opt_log ++ [⟨1, dims_of x₁ s, 4⟩]))) = -2 →
      (objective_function g x₂ (OptState.mk 1 (-(1/4)) s.var_real_bounds
          (s.opt_log ++ [⟨1, dims_of x₁ s, 4⟩]))).map Prod.fst =
        .ok (-(1/2)) := by
  have hnz : f (dims_of x₁ s) ≠ 0 := by rw [h1]; norm_num
  constructor
  · rw [objective_function_first f x₁ s h0 hnz, h1]
    norm_num
  · intro g x₂ h2
    rw [objective_function_later g x₂ _ (by norm_num), h2]
    norm_num [Except.map]

/-- Witness for the amended C1 at one control with bounds `(0, 1)` and
normalized input `0.5`, with constant pipelines `-4` then `-2`. -/
theorem claim_C1_first_call_scaling_witness :
    (objective_function (fun _ => -4) [1/2] (OptState.mk 0 1 [(0, 1)] []) =
      .ok (-1, OptState.mk 1 (-(1/4)) (OptState.mk 0 1 [(0, 1)] []).var_real_bounds
        ((OptState.mk 0 1 [(0, 1)] []).opt_log ++
          [⟨1, dims_of [1/2] (OptState.mk 0 1 [(0, 1)] []), 4⟩])) ∧
    ∀ (g : List ℚ → ℚ) (x₂ : List ℚ),
      g (dims_of x₂ (OptState.mk 1 (-(1/4))
          (OptState.mk 0 1 [(0, 1)] []).var_real_bounds
          ((OptState.mk 0 1 [(0, 1)] []).opt_log ++
            [⟨1, dims_of [1/2] (OptState.mk 0 1 [(0, 1)] []), 4⟩]))) = -2 →
      (objective_function g x₂ (OptState.mk 1 (-(1/4))
          (OptState.mk 0 1 [(0, 1)] []).var_real_bounds
          ((OptState.mk 0 1 [(0, 1)] []).opt_log ++
            [⟨1, dims_of [1/2] (OptState.mk 0 1 [(0, 1)] []), 4⟩]))).map
        Prod.fst = .ok (-(1/2))) :=
  claim_C1_first_call_scaling (fun _ => -4) [1/2]
    (OptState.mk 0 1 [(0, 1)] []) rfl rfl

/-- Claim C5: every call to `objective_function` that returns appends exactly
one log record carrying the 1-based incremented iteration number, the
dimensional values in control order, and the negated unscaled objective; in
particular, with controls bounded `(0, 1)` and `(10, 20)`, normalized inputs
`(0.5, 0.5)` and pipeline value `2.0`, the first evaluation logs the row
`1, 0.5, 15.0, -2.0` and sets the scaling factor to `0.5`. -/
theorem claim_C5_logging (f : List ℚ → ℚ) (x : List ℚ) (s : OptState)
    (v : ℚ) (s' : OptState) (h : objective_function f x s = .ok (v, s')) :
    (s'.opt_log = s.opt_log ++
        [⟨s.fn_evals + 1, dims_of x s, -(f (dims_of x s))⟩] ∧
      s'.fn_evals = s.fn_evals + 1) ∧
    objective_function (fun _ => 2) [1/2, 1/2]
        (OptState.mk 0 1 [(0, 1), (10, 20)] []) =
      .ok (-1, OptState.mk 1 (1/2) [(0, 1), (10, 20)]
        [⟨1, [1/2, 15], -2⟩]) := by
  constructor
  · by_cases h0 : s.fn_evals = 0
    · by_cases hz : f (dims_of x s) = 0
      · rw [objective_function_first_zero f x s h0 hz] at h
        cases h
      · rw [objective_function_first f x s h0 hz] at h
        rw [Except.ok.injEq, Prod.mk.injEq] at h
        rw [← h.2, h0]
        exact ⟨rfl, rfl⟩
    · rw [objective_function_later f x s h0] at h
      rw [Except.ok.injEq, Prod.mk.injEq] at h
      rw [← h.2]
      exact ⟨rfl, rfl⟩
  · rw [objective_function_first (fun _ => 2) [1/2, 1/2]
        (OptState.mk 0 1 [(0, 1), (10, 20)] []) rfl (by norm_num)]
    norm_num [dims_of, scale_back]

/-- Witness for C5: the first-call scenario of the claim, applied to the
theorem with its pipeline-result hypothesis discharged by computation. -/
theorem claim_C5_logging_witness :
    (OptState.mk 1 (1/2) [(0, 1), (10, 20)] [⟨1, [1/2, 15], -2⟩]).opt_log =
        (OptState.mk 0 1 [(0, 1), (10, 20)] []).opt_log ++
          [⟨(OptState.mk 0 1 [(0, 1), (10, 20)] ([] : List LogRow)).fn_evals + 1,
            dims_of [1/2, 1/2] (OptState.mk 0 1 [(0, 1), (10, 20)] []),
            -((fun _ => (2 : ℚ)) (dims_of [1/2, 1/2]
              (OptState.mk 0 1 [(0, 1), (10, 20)] [])))⟩] ∧
      (OptState.mk 1 (1/2) [(0, 1), (10, 20)]
          [⟨1, [1/2, 15], -2⟩]).fn_evals =
        (OptState.mk 0 1 [(0, 1), (10, 20)] ([] : List LogRow)).fn_evals + 1 := by
  have hconc : objective_function (fun _ => 2) [1/2, 1/2]
      (OptState.mk 0 1 [(0, 1), (10, 20)] []) =
      .ok (-1, OptState.mk 1 (1/2) [(0, 1), (10, 20)]
        [⟨1, [1/2, 15], -2⟩]) := by
    rw [objective_function_first (fun _ => 2) [1/2, 1/2]
        (OptState.mk 0 1 [(0, 1), (10, 20)] []) rfl (by norm_num)]
    norm_num [dims_of, scale_back]
  exact (claim_C5_logging (fun _ => 2) [1/2, 1/2]
    (OptState.mk 0 1 [(0, 1), (10, 20)] []) (-1)
    (OptState.mk 1 (1/2) [(0, 1), (10, 20)] [⟨1, [1/2, 15], -2⟩]) hconc).1

/-- Witness for C8: an empty control set is rejected, and the singleton
`initial_acid_conc` control with bounds `(0, 1)` yields a length-1 vector. -/
theorem claim_C8_control_count_witness :
    opt_init [Control.mk "show_plots" "Show plots" 1 0 1 false] =
      .error (.strValueError
        "No controls have been specified, retry with >= 1 control variables.") ∧
    ∃ r, opt_init [Control.mk "initial_acid_conc" "Acid Loading"
        (1/10) 0 1 true] = .ok r ∧ r.x_0.length = 1 := by
  constructor
  · exact (claim_C8_control_count _).1 (by decide)
  · exact (claim_C8_control_count _).2
      (Control.mk "initial_acid_conc" "Acid Loading" (1/10) 0 1 true)
      (by rfl) (by norm_num)

/-- Reading every position of a list back through `getD` over its index
range reproduces the list. -/
lemma range_map_getD {α : Type} (xs : List α) (d : α) :
    (List.range xs.length).map (fun i => xs.getD i d) = xs := by
  induction xs with
  | nil => rfl
  | cons x xs ih =>
    rw [List.length_cons, List.range_succ_eq_map, List.map_cons, List.map_map]
    simp only [Function.comp_def, List.getD_cons_zero, List.getD_cons_succ]
    rw [ih]

/-- Composition form of `range_map_getD`. -/
lemma range_map_getD_comp {α β : Type} (xs : List α) (d : α) (g : α → β) :
    (List.range xs.length).map (fun i => g (xs.getD i d)) = xs.map g := by
  rw [show (fun i => g (xs.getD i d)) = g ∘ (fun i => xs.getD i d) from rfl,
    ← List.map_map, range_map_getD]

/-- `List.range (n * m)` enumerated as `m`-blocks. -/
lemma range_mul_eq_bind (n m : ℕ) :
    List.range (n * m) =
      (List.range n).flatMap fun q => (List.range m).map fun r => q * m + r := by
  induction n with
  | zero => simp
  | succ n ih =>
    rw [Nat.succ_mul, List.range_add, ih, List.range_succ, List.flatMap_append]
    simp

/-- Peeling the slowest coordinate off a raveled meshgrid column. -/
lemma gridCombo_cons (xs : List ℚ) (rest : List (List ℚ)) (n q r : ℕ)
    (hq : q < n) (hr : r < n ^ rest.length) :
    gridCombo (xs :: rest) n (q * n ^ rest.length + r) =
      xs.getD q 0 :: gridCombo rest n r := by
  unfold gridCombo
  rw [List.length_cons, List.range_succ_eq_map, List.map_cons, List.map_map]
  congr 1
  · have h1 : rest.length + 1 - 1 - 0 = rest.length := by omega
    have hnpos : 0 < n := lt_of_le_of_lt (Nat.zero_le q) hq
    rw [h1, List.getD_cons_zero, Nat.add_comm,
      Nat.add_mul_div_right _ _ (pow_pos hnpos rest.length),
      Nat.div_eq_of_lt hr, Nat.zero_add, Nat.mod_eq_of_lt hq]
  · rw [List.map_eq_map_iff]
    intro j hj
    rw [List.mem_range] at hj
    simp only [Function.comp_def, List.getD_cons_succ]
    congr 1
    have h2 : rest.length + 1 - 1 - (j + 1) = rest.length - 1 - j := by omega
    rw [h2]
    set m := rest.length - 1 - j with hm
    have hmd : m + (j + 1) = rest.length := by omega
    have hsplit : q * n ^ rest.length + r = r + q * n ^ (j + 1) * n ^ m := by
      rw [Nat.mul_assoc, ← pow_add]
      rw [show j + 1 + m = rest.length from by omega]
      omega
    have hnpos : 0 < n := lt_of_le_of_lt (Nat.zero_le q) hq
    rw [hsplit, Nat.add_mul_div_right _ _ (pow_pos hnpos m)]
    rw [show q * n ^ (j + 1) = q * n ^ j * n from by rw [Nat.mul_assoc, pow_succ]]
    rw [Nat.add_mul_mod_self_right]

/-- Mapping after a flat map distributes into the flat map. -/
lemma bind_then_map {α β γ : Type} (l : List α) (f : α → List β) (g : β → γ) :
    (l.flatMap f).map g = l.flatMap fun a => (f a).map g := by
  induction l with
  | nil => rfl
  | cons a l ih => simp [List.flatMap_cons, ih]

/-- Flat-mapping after a map composes the functions. -/
lemma map_then_bind {α β γ : Type} (l : List α) (f : α → β) (g : β → List γ) :
    (l.map f).flatMap g = l.flatMap fun a => g (f a) := by
  induction l with
  | nil => rfl
  | cons a l ih => simp [List.flatMap_cons, ih]

/-- Pointwise-equal flat-map bodies give equal flat maps. -/
lemma bind_congr_mem {α β : Type} (l : List α) (f g : α → List β)
    (h : ∀ a ∈ l, f a = g a) : l.flatMap f = l.flatMap g := by
  induction l with
  | nil => rfl
  | cons a l ih =>
    simp only [List.flatMap_cons]
    rw [h a (List.mem_cons_self a l),
      ih fun x hx => h x (List.mem_cons_of_mem _ hx)]

/-- The raveled meshgrid enumeration is exactly the row-major Cartesian
product of the per-variable point lists. -/
lemma grid_enum_eq_cartProd (n : ℕ) :
    ∀ pts : List (List ℚ), (∀ xs ∈ pts, xs.length = n) →
      (List.range (n ^ pts.length)).map (gridCombo pts n) = cartProd pts := by
  intro pts
  induction pts with
  | nil =>
    intro _
    rw [List.length_nil, pow_zero]
    rfl
  | cons xs rest ih =>
    intro h
    have hxs : xs.length = n := h xs (List.mem_cons_self xs rest)
    rcases Nat.eq_zero_or_pos n with hn | hn
    · subst hn
      have hxsnil : xs = [] := List.eq_nil_of_length_eq_zero hxs
      rw [List.length_cons, pow_succ, Nat.mul_zero, List.range_zero,
        List.map_nil, cartProd, hxsnil, List.flatMap_nil]
    · have hrest := ih fun l hl => h l (List.mem_cons_of_mem _ hl)
      rw [List.length_cons, pow_succ', range_mul_eq_bind n (n ^ rest.length),
        bind_then_map]
      rw [bind_congr_mem _ _
          (fun q => (cartProd rest).map fun c => xs.getD q 0 :: c) ?_]
      · rw [cartProd]
        conv_rhs => rw [← range_map_getD xs 0, hxs]
        rw [map_then_bind]
      · intro q hq
        rw [List.mem_range] at hq
        rw [List.map_map]
        have hcomp : ∀ r ∈ List.range (n ^ rest.length),
            (gridCombo (xs :: rest) n ∘ fun r => q * n ^ rest.length + r) r =
              xs.getD q 0 :: gridCombo rest n r := by
          intro r hr
          rw [List.mem_range] at hr
          exact gridCombo_cons xs rest n q r hq hr
        rw [List.map_eq_map_iff.mpr hcomp]
        rw [show (fun r => xs.getD q 0 :: gridCombo rest n r) =
            (fun c => xs.getD q 0 :: c) ∘ gridCombo rest n from rfl,
          ← List.map_map, hrest]

/-- `linspace` always returns `n` samples. -/
lemma linspace_length (lb ub : ℚ) (n : ℕ) : (linspace lb ub n).length = n := by
  unfold linspace
  split
  · simp [*]
  · simp

/-- The first `linspace` sample is the lower bound. -/
lemma linspace_getD_zero (lb ub : ℚ) (n : ℕ) (hn : 0 < n) :
    (linspace lb ub n).getD 0 0 = lb := by
  unfold linspace
  split
  · rfl
  · obtain ⟨m, rfl⟩ : ∃ m, n = m + 1 := ⟨n - 1, by omega⟩
    rw [List.range_succ_eq_map, List.map_cons, List.getD_cons_zero]
    norm_num

/-- For `n ≥ 2` the last `linspace` sample is exactly the upper bound. -/
lemma linspace_getD_last (lb ub : ℚ) (n : ℕ) (hn : 2 ≤ n) :
    (linspace lb ub n).getD (n - 1) 0 = ub := by
  unfold linspace
  rw [if_neg (by omega)]
  rw [List.getD_eq_getElem?_getD, List.getElem?_map,
    List.getElem?_range (by omega : n - 1 < n)]
  simp only [Option.map_some', Option.getD_some]
  have hcast : ((n - 1 : ℕ) : ℚ) = (n : ℚ) - 1 := by
    push_cast [Nat.cast_sub (by omega : 1 ≤ n)]
    ring
  have hne : (n : ℚ) - 1 ≠ 0 := by
    have h2 : (2 : ℚ) ≤ (n : ℚ) := by exact_mod_cast hn
    intro hcontra
    linarith
  rw [hcast]
  field_simp

/-- The multi-index digits of flat position `n^d - 1` are all `n - 1`. -/
lemma pow_pred_div_mod (n d j : ℕ) (hn : 1 ≤ n) (hj : j < d) :
    ((n ^ d - 1) / n ^ (d - 1 - j)) % n = n - 1 := by
  set m := d - 1 - j with hm
  have h1 : 1 ≤ n ^ m := Nat.one_le_pow _ _ (by omega)
  have h3 : 1 ≤ n ^ j := Nat.one_le_pow _ _ (by omega)
  have hpow : n ^ (j + 1) * n ^ m = n ^ d := by
    rw [← pow_add]
    congr 1
    omega
  have hmono : n ^ m ≤ n ^ d := Nat.pow_le_pow_right (by omega) (by omega)
  have hdec : n ^ d - 1 = (n ^ m - 1) + (n ^ (j + 1) - 1) * n ^ m := by
    rw [Nat.sub_mul, one_mul, hpow]
    omega
  rw [hdec, Nat.add_mul_div_right _ _ (by omega : 0 < n ^ m),
    Nat.div_eq_of_lt (by omega), Nat.zero_add]
  have hself : n ≤ n ^ (j + 1) := Nat.le_self_pow (by omega) n
  have hdec2 : n ^ (j + 1) - 1 = (n - 1) + (n ^ j - 1) * n := by
    rw [Nat.sub_mul, one_mul, ← pow_succ]
    omega
  rw [hdec2, Nat.add_mul_mod_self_right, Nat.mod_eq_of_lt (by omega)]

/-- The first raveled meshgrid column takes every variable at sample 0. -/
lemma gridCombo_zero (pts : List (List ℚ)) (n : ℕ) :
    gridCombo pts n 0 = pts.map fun l => l.getD 0 0 := by
  unfold gridCombo
  rw [← range_map_getD_comp pts [] fun l => l.getD 0 0]
  rw [List.map_eq_map_iff]
  intro j hj
  rw [Nat.zero_div, Nat.zero_mod]

/-- The last raveled meshgrid column takes every variable at sample
`n - 1`. -/
lemma gridCombo_last (pts : List (List ℚ)) (n : ℕ) (hn : 1 ≤ n) :
    gridCombo pts n (n ^ pts.length - 1) =
      pts.map fun l => l.getD (n - 1) 0 := by
  unfold gridCombo
  rw [← range_map_getD_comp pts [] fun l => l.getD (n - 1) 0]
  rw [List.map_eq_map_iff]
  intro j hj
  rw [List.mem_range] at hj
  rw [pow_pred_div_mod n pts.length j hn hj]

/-- Mapping a projection that undoes the decoration over a `mapIdx`
recovers the original list. -/
lemma map_mapIdx_values :
    ∀ (l : List (List ℚ)) (g : ℕ → List ℚ → SweepRow),
      (∀ i dv, (g i dv).values = dv) →
      (l.mapIdx g).map SweepRow.values = l := by
  intro l
  induction l with
  | nil => intro g _; rfl
  | cons c l ih =>
    intro g h
    rw [List.mapIdx_cons, List.map_cons, h, ih _ fun i dv => h (i + 1) dv]

/-- Dropping the iteration/objective decoration recovers the combination
list. -/
lemma sweep_map_values (f : List ℚ → ℚ) (bounds : List (ℚ × ℚ)) (nn : ℕ) :
    (parameter_grid_sweep f bounds nn).map SweepRow.values =
      grid_combos bounds nn :=
  map_mapIdx_values _ _ fun _ _ => rfl

/-- Indexing into a `mapIdx` applies the function at that index. -/
lemma mapIdx_getElem? :
    ∀ (l : List (List ℚ)) (g : ℕ → List ℚ → SweepRow) (i : ℕ),
      (l.mapIdx g)[i]? = (l[i]?).map (g i) := by
  intro l
  induction l with
  | nil => intro g i; rfl
  | cons c l ih =>
    intro g i
    cases i with
    | zero => rw [List.mapIdx_cons]; simp
    | succ i =>
      rw [List.mapIdx_cons]
      simp only [List.getElem?_cons_succ]
      exact ih _ i

/-- Counterexample to claim C4 as stated: the claim quantifies over every
point count `n ≥ 1`, but for `n = 1` `np.linspace(lb, ub, 1)` returns only
the start point `lb`, so with one control bounded `(0, 1)` the single (and
hence last) combination is the lower bound `[0]`, not the upper bounds
`[1]`. -/
theorem claim_C4_counterexample :
    (parameter_grid_sweep (fun _ => 0) [((0 : ℚ), (1 : ℚ))] 1).map
        SweepRow.values = [[0]] ∧
    ((parameter_grid_sweep (fun _ => 0) [((0 : ℚ), (1 : ℚ))] 1).map
        SweepRow.values).getLast? ≠
      some ([((0 : ℚ), (1 : ℚ))].map Prod.snd) := by
  have h : (parameter_grid_sweep (fun _ => 0) [((0 : ℚ), (1 : ℚ))] 1).map
      SweepRow.values = [[0]] := by
    rw [sweep_map_values]
    unfold grid_combos
    have h1 : (1 : ℕ) ^ [((0 : ℚ), (1 : ℚ))].length = 1 := by norm_num
    rw [h1, show List.range 1 = [0] from rfl, List.map_cons, List.map_nil,
      gridCombo_zero]
    simp [linspace]
  refine ⟨h, ?_⟩
  rw [h]
  simp

/-- Claim C4 amended: for every point count `n ≥ 2` and bounds list, the
sweep enumerates exactly `n ^ d` combinations, namely the row-major
Cartesian product of the `n` evenly spaced points per variable, the first
combination being all lower bounds and the last all upper bounds, and each
row records a 1-based index and the raw pipeline value of its combination
with no negation and no scaling.  (For `n = 1` numpy linspace yields the
single point `lb` per variable, so the sweep has exactly one combination,
all lower bounds.) -/
theorem claim_C4_grid_sweep (f : List ℚ → ℚ) (bounds : List (ℚ × ℚ))
    (n : ℕ) (hn : 2 ≤ n) :
    (parameter_grid_sweep f bounds n).length = n ^ bounds.length ∧
    (parameter_grid_sweep f bounds n).map SweepRow.values =
      cartProd (bounds.map fun b => linspace b.1 b.2 n) ∧
    ((parameter_grid_sweep f bounds n).map SweepRow.values).head? =
      some (bounds.map Prod.fst) ∧
    ((parameter_grid_sweep f bounds n).map SweepRow.values).getLast? =
      some (bounds.map Prod.snd) ∧
    ∀ i < (parameter_grid_sweep f bounds n).length,
      (parameter_grid_sweep f bounds n)[i]? =
        ((grid_combos bounds n)[i]?).map fun dv => ⟨i + 1, dv, f dv⟩ := by
  have hpts : ∀ xs ∈ bounds.map fun b => linspace b.1 b.2 n,
      xs.length = n := by
    intro xs hxs
    rw [List.mem_map] at hxs
    obtain ⟨b, -, rfl⟩ := hxs
    exact linspace_length _ _ _
  have hlenpts : (bounds.map fun b => linspace b.1 b.2 n).length =
      bounds.length := List.length_map _ _
  have hpos : 0 < n ^ bounds.length := pow_pos (by omega) _
  obtain ⟨m, hm⟩ : ∃ m, n ^ bounds.length = m + 1 :=
    ⟨n ^ bounds.length - 1, by omega⟩
  refine ⟨?_, ?_, ?_, ?_, ?_⟩
  · unfold parameter_grid_sweep
    rw [List.length_mapIdx]
    unfold grid_combos
    rw [List.length_map, List.length_range]
  · rw [sweep_map_values]
    unfold grid_combos
    rw [← hlenpts]
    exact grid_enum_eq_cartProd n _ hpts
  · rw [sweep_map_values]
    unfold grid_combos
    rw [hm, List.range_succ_eq_map, List.map_cons, List.head?_cons,
      gridCombo_zero, List.map_map]
    rw [Option.some.injEq, List.map_eq_map_iff]
    intro b _
    exact linspace_getD_zero b.1 b.2 n (by omega)
  · rw [sweep_map_values]
    unfold grid_combos
    rw [hm, List.range_succ, List.map_append, List.map_cons, List.map_nil,
      List.getLast?_concat]
    have hm' : m = n ^ (bounds.map fun b => linspace b.1 b.2 n).length - 1 := by
      rw [hlenpts]; omega
    rw [hm', gridCombo_last _ n (by omega), List.map_map]
    rw [Option.some.injEq, List.map_eq_map_iff]
    intro b _
    exact linspace_getD_last b.1 b.2 n hn
  · intro i _
    unfold parameter_grid_sweep
    rw [mapIdx_getElem?]

/-- Witness for the amended C4: two controls with bounds `(0, 1)` and
`(10, 20)` swept at `n = 3` points. -/
theorem claim_C4_grid_sweep_witness :
    2 ≤ 3 ∧
    ((parameter_grid_sweep (fun l => l.headD 0)
        [((0 : ℚ), (1 : ℚ)), ((10 : ℚ), (20 : ℚ))] 3).length =
      3 ^ [((0 : ℚ), (1 : ℚ)), ((10 : ℚ), (20 : ℚ))].length ∧
    (parameter_grid_sweep (fun l => l.headD 0)
        [((0 : ℚ), (1 : ℚ)), ((10 : ℚ), (20 : ℚ))] 3).map SweepRow.values =
      cartProd ([((0 : ℚ), (1 : ℚ)), ((10 : ℚ), (20 : ℚ))].map
        fun b => linspace b.1 b.2 3) ∧
    ((parameter_grid_sweep (fun l => l.headD 0)
        [((0 : ℚ), (1 : ℚ)), ((10 : ℚ), (20 : ℚ))] 3).map
        SweepRow.values).head? =
      some ([((0 : ℚ), (1 : ℚ)), ((10 : ℚ), (20 : ℚ))].map Prod.fst) ∧
    ((parameter_grid_sweep (fun l => l.headD 0)
        [((0 : ℚ), (1 : ℚ)), ((10 : ℚ), (20 : ℚ))] 3).map
        SweepRow.values).getLast? =
      some ([((0 : ℚ), (1 : ℚ)), ((10 : ℚ), (20 : ℚ))].map Prod.snd) ∧
    ∀ i < (parameter_grid_sweep (fun l => l.headD 0)
        [((0 : ℚ), (1 : ℚ)), ((10 : ℚ), (20 : ℚ))] 3).length,
      (parameter_grid_sweep (fun l => l.headD 0)
          [((0 : ℚ), (1 : ℚ)), ((10 : ℚ), (20 : ℚ))] 3)[i]? =
        ((grid_combos [((0 : ℚ), (1 : ℚ)), ((10 : ℚ), (20 : ℚ))] 3)[i]?).map
          fun dv => ⟨i + 1, dv, (fun l => l.headD 0) dv⟩) :=
  ⟨by norm_num, claim_C4_grid_sweep (fun l => l.headD 0)
    [((0 : ℚ), (1 : ℚ)), ((10 : ℚ), (20 : ℚ))] 3 (by norm_num)⟩

/-- Counterexample to claim C6 as stated: the claim quantifies over every
stage parameter setter, but `Bioreactor.column_diameter` rejects `10`
(outside its allowed interval `[1, 6]`) with an error naming the interval
`[1, 1e16]`, which contains `10` — the error does not carry the allowed
interval. -/
theorem claim_C6_counterexample :
    br_set_column_diameter 10
        (Bioreactor.mk "CFD Surrogate" (1/20) 20 3 (1/200) 100)
        (Params.mk none none none (.val 0)) =
      (some (.rangeValueError 10 1 (10 ^ 16)),
        Bioreactor.mk "CFD Surrogate" (1/20) 20 3 (1/200) 100,
        Params.mk none none none (.val 0)) ∧
    ¬ (1 ≤ (10 : ℚ) ∧ (10 : ℚ) ≤ 6) ∧
    (1 ≤ (10 : ℚ) ∧ (10 : ℚ) ≤ 10 ^ 16) := by
  refine ⟨?_, by norm_num, by norm_num⟩
  rw [br_set_column_diameter, if_pos (by norm_num)]

/-- Claim C6 amended: an out-of-range set on a stage parameter setter
raises a ValueError carrying the offending value and leaves both the
in-memory attribute and the persisted configuration unchanged; for the
Feedstock and Pretreatment setters named by the claim the error also
carries the allowed interval, but `Bioreactor.column_diameter` (allowed
interval `[1, 6]`) reports the unrelated interval `[1, 1e16]`. -/
theorem claim_C6_setter_validation (a : ℚ) (fs : Feedstock)
    (pt : Pretreatment) (br : Bioreactor) (d : Params) :
    (¬ (0 ≤ a ∧ a ≤ 1) →
      Feedstock.set_xylan_solid_fraction a fs d =
        (some (.rangeValueError a 0 1), fs, d)) ∧
    (¬ (0 ≤ a ∧ a ≤ 1) →
      Pretreatment.set_initial_acid_conc a pt d =
        (some (.rangeValueError a 0 1), pt, d)) ∧
    (¬ (1 ≤ a ∧ a ≤ 6) →
      br_set_column_diameter a br d =
        (some (.rangeValueError a 1 (10 ^ 16)), br, d)) := by
  refine ⟨?_, ?_, ?_⟩ <;> intro h
  · rw [Feedstock.set_xylan_solid_fraction, if_pos h]
  · rw [Pretreatment.set_initial_acid_conc, if_pos h]
  · rw [br_set_column_diameter, if_pos h]

/-- Witness for the amended C6: setting the value `7`, one past every
relevant upper bound, is rejected atomically by all three setters. -/
theorem claim_C6_setter_validation_witness :
    ¬ ((0 : ℚ) ≤ 7 ∧ (7 : ℚ) ≤ 1) ∧
    ¬ (1 ≤ (7 : ℚ) ∧ (7 : ℚ) ≤ 6) ∧
    Feedstock.set_xylan_solid_fraction 7 (Feedstock.mk (1/4) (1/4) (1/2))
        (Params.mk none none none (.val 0)) =
      (some (.rangeValueError 7 0 1), Feedstock.mk (1/4) (1/4) (1/2),
        Params.mk none none none (.val 0)) ∧
    Pretreatment.set_initial_acid_conc 7
        (Pretreatment.mk (1/10) 400 (1/10) (1/100) 600)
        (Params.mk none none none (.val 0)) =
      (some (.rangeValueError 7 0 1),
        Pretreatment.mk (1/10) 400 (1/10) (1/100) 600,
        Params.mk none none none (.val 0)) ∧
    br_set_column_diameter 7
        (Bioreactor.mk "CFD Surrogate" (1/20) 20 3 (1/200) 100)
        (Params.mk none none none (.val 0)) =
      (some (.rangeValueError 7 1 (10 ^ 16)),
        Bioreactor.mk "CFD Surrogate" (1/20) 20 3 (1/200) 100,
        Params.mk none none none (.val 0)) :=
  ⟨by norm_num, by norm_num,
    (claim_C6_setter_validation 7 (Feedstock.mk (1/4) (1/4) (1/2))
      (Pretreatment.mk (1/10) 400 (1/10) (1/100) 600)
      (Bioreactor.mk "CFD Surrogate" (1/20) 20 3 (1/200) 100)
      (Params.mk none none none (.val 0))).1 (by norm_num),
    (claim_C6_setter_validation 7 (Feedstock.mk (1/4) (1/4) (1/2))
      (Pretreatment.mk (1/10) 400 (1/10) (1/100) 600)
      (Bioreactor.mk "CFD Surrogate" (1/20) 20 3 (1/200) 100)
      (Params.mk none none none (.val 0))).2.1 (by norm_num),
    (claim_C6_setter_validation 7 (Feedstock.mk (1/4) (1/4) (1/2))
      (Pretreatment.mk (1/10) 400 (1/10) (1/100) 600)
      (Bioreactor.mk "CFD Surrogate" (1/20) 20 3 (1/200) 100)
      (Params.mk none none none (.val 0))).2.2 (by norm_num)⟩

/-- Claim C9: the decorated setters for `column_height` and
`bubble_diameter` are both defined under the class-body name `t_final` and
shadowed by the later `t_final` property, so in the final class dictionary
those two properties have no setter: every assignment to them raises
`AttributeError` and changes nothing, while their getters stay readable
and the surviving `t_final` setter is the real one. -/
theorem claim_C9_shadowed_setters (a : ℚ) (s : Bioreactor) (d : Params) :
    brSetAttr .column_height a s d = (some .attributeError, s, d) ∧
    brSetAttr .bubble_diameter a s d = (some .attributeError, s, d) ∧
    brGetAttr .column_height s = some s._column_height ∧
    brGetAttr .bubble_diameter s = some s._bubble_diameter ∧
    brSetAttr .t_final a s d = br_set_t_final a s d := by
  exact ⟨rfl, rfl, rfl, rfl, rfl⟩

/-- Claim C10: when the persisted `enzymatic_output` `rho_g` is NaN,
`run_biorector_cfd_surrogate` performs no bioreactor computation (the
document is returned untouched and the surrogate entry point is never
invoked) and returns Python `None` — neither the `True` (NaN detected) nor
the `False` (success) value of the run interface. -/
theorem claim_C10_surrogate_nan_returns_none (main : Params → Params)
    (nansIn : Params → Bool) (d : Params)
    (h : d.enzymatic_output_rho_g = .nan) :
    Bioreactor.run_biorector_cfd_surrogate main nansIn d = (none, d) ∧
    ∀ b : Bool,
      (Bioreactor.run_biorector_cfd_surrogate main nansIn d).1 ≠ some b := by
  have hb : d.enzymatic_output_rho_g.isNan = true := by rw [h]; rfl
  refine ⟨?_, ?_⟩
  · rw [Bioreactor.run_biorector_cfd_surrogate, if_pos hb]
  · intro b
    rw [Bioreactor.run_biorector_cfd_surrogate, if_pos hb]
    simp

/-- Witness for C10: a document whose `rho_g` is the NaN placeholder. -/
theorem claim_C10_surrogate_nan_returns_none_witness :
    (Params.mk none none none .nan).enzymatic_output_rho_g = .nan ∧
    (Bioreactor.run_biorector_cfd_surrogate id (fun _ => false)
        (Params.mk none none none .nan) =
      (none, Params.mk none none none .nan) ∧
    ∀ b : Bool,
      (Bioreactor.run_biorector_cfd_surrogate id (fun _ => false)
        (Params.mk none none none .nan)).1 ≠ some b) :=
  ⟨rfl, claim_C10_surrogate_nan_returns_none id (fun _ => false)
    (Params.mk none none none .nan) rfl⟩

end VE
